import Mathlib

/-!
Shallow embedding of the agent registry / routing / dispatch core of the
repository (the `IntelligentAgentRegistry` classes and the orchestrator
functions `smart_fallback_routing`, `intelligent_route_query`,
`send_to_agent`, `discover_agents`, `load_registry` and the interactive
loops in `src/a2a_langgraph/client/orchestrator.py`,
`src/a2a_search/client/orchestrator.py` and
`src/a2a_framework_agnostic/client/`), together with theorems checking the
natural-language specification against it.
-/

namespace A2A

/-! ### String utilities modelling the Python primitives used by the code -/

/-- `listIsPfx n h` models the check that character list `n` is an initial
segment of `h` (the building block for Python substring containment). -/
def listIsPfx : List Char → List Char → Bool
  | [], _ => true
  | _ :: _, [] => false
  | c :: cs, d :: ds => c == d && listIsPfx cs ds

/-- `listSub n h` models membership of `n` as a contiguous sublist of `h`;
the empty list is a sublist of everything, matching Python semantics. -/
def listSub (n : List Char) : List Char → Bool
  | [] => n.isEmpty
  | d :: ds => listIsPfx n (d :: ds) || listSub n ds

/-- `pyIn needle hay` models the Python expression `needle in hay` on
strings: contiguous substring containment. -/
def pyIn (needle hay : String) : Bool :=
  listSub needle.data hay.data

/-- `pyLower s` models Python `s.lower()` (ASCII case folding, which is
all the code's keyword tables and agent names exercise). -/
def pyLower (s : String) : String :=
  ⟨s.data.map Char.toLower⟩

/-- `pyStrip s` models Python `s.strip()`: drop leading and trailing
whitespace. -/
def pyStrip (s : String) : String :=
  ⟨((s.data.dropWhile Char.isWhitespace).reverse.dropWhile Char.isWhitespace).reverse⟩

/-! ### Data model

`Skill`, `AgentInfo` (the per-agent dict stored in `agent_cards` by
`a2a_langgraph/client/orchestrator.py` / `a2a_framework_agnostic`), and
`SearchAgentInfo` (the tag-aware variant stored by the registry used by
`a2a_search/client/orchestrator.py`, which also records `tags`). -/

structure Skill where
  name : String
  description : String
  examples : List String
deriving DecidableEq, Repr

/-- One entry of `registry.agent_cards` in the langgraph orchestrator:
`{'url', 'description', 'name', 'skills'}`. -/
structure AgentInfo where
  url : String
  description : String
  name : String
  skills : List Skill
deriving DecidableEq, Repr

/-- One entry of `registry.agent_cards` in the tag-aware (a2a_search)
variant: the same dict plus `'tags': getattr(agent_card, 'tags', [])`. -/
structure SearchAgentInfo where
  url : String
  description : String
  name : String
  skills : List Skill
  tags : List String
deriving DecidableEq, Repr

/-- A remote agent capability card as obtained by the discovery resolver
(`A2ACardResolver.get_agent_card`): the fields the registry code reads. -/
structure AgentCard where
  name : String
  description : String
  skills : List Skill
deriving DecidableEq, Repr

/-- The per-agent dict that `discover_agents` builds from a fetched card
(`agent_cards[name] = {'url': url, 'description': ..., 'name': ...,
'skills': [...]}`). -/
def infoOfCard (url : String) (card : AgentCard) : AgentInfo :=
  { url := url
    description := card.description
    name := card.name
    skills := card.skills }

/-! ### Keyword tables of `smart_fallback_routing` -/

/-- Query-side time keywords: `['time', 'clock', 'hour', 'when', 'minute']`. -/
def timeQueryKeywords : List String := ["time", "clock", "hour", "when", "minute"]

/-- Query-side greeting keywords:
`['hello', 'hi', 'greet', 'how are you', 'good morning']`. -/
def greetQueryKeywords : List String := ["hello", "hi", "greet", "how are you", "good morning"]

/-- Descriptor-side time keywords: `['time', 'clock', 'current']`. -/
def timeAgentKeywords : List String := ["time", "clock", "current"]

/-- Descriptor-side greeting keywords:
`['greet', 'friendly', 'conversation', 'hello']`. -/
def greetAgentKeywords : List String := ["greet", "friendly", "conversation", "hello"]

/-- `queryMatchesTime ql` models
`any(keyword in query_lower for keyword in ['time', ...])`. -/
def queryMatchesTime (queryLower : String) : Bool :=
  timeQueryKeywords.any fun k => pyIn k queryLower

/-- `queryMatchesGreet ql` models
`any(keyword in query_lower for keyword in ['hello', ...])`. -/
def queryMatchesGreet (queryLower : String) : Bool :=
  greetQueryKeywords.any fun k => pyIn k queryLower

/-- One skill's contribution to `skills_text`:
`f"{skill['name']} {skill['description']} {' '.join(skill['examples'])}"`. -/
def skillText (sk : Skill) : String :=
  sk.name ++ " " ++ sk.description ++ " " ++ String.intercalate " " sk.examples

/-- The lowercased `description + ' ' + skills_text` scanned by the
langgraph `smart_fallback_routing`. -/
def agentText (info : AgentInfo) : String :=
  pyLower info.description ++ " " ++
    pyLower (String.intercalate " " (info.skills.map skillText))

/-- The lowercased `description + ' ' + skills_text + ' ' + tags_text`
scanned by the tag-aware (a2a_search) `smart_fallback_routing`. -/
def searchAgentText (info : SearchAgentInfo) : String :=
  pyLower info.description ++ " " ++
    pyLower (String.intercalate " " (info.skills.map skillText)) ++ " " ++
    pyLower (String.intercalate " " info.tags)

/-- `textHasAny kws text` models
`any(keyword in text for keyword in kws)`. -/
def textHasAny (kws : List String) (text : String) : Bool :=
  kws.any fun k => pyIn k text

/-! ### `smart_fallback_routing` (langgraph variant, no tags)

The Python loop walks `registry.agent_cards.items()` in insertion order,
per agent first testing the time bucket then the greeting bucket, and
returns the first hit; if no agent is returned it falls back to
`next(iter(registry.agent_cards.keys()))`, which raises on an empty dict —
modelled by `none`. -/

/-- The per-agent scan of the langgraph `smart_fallback_routing`. -/
def sfrScan (queryLower : String) : List (String × AgentInfo) → Option String
  | [] => none
  | (name, info) :: rest =>
    if queryMatchesTime queryLower && textHasAny timeAgentKeywords (agentText info) then
      some name
    else if queryMatchesGreet queryLower && textHasAny greetAgentKeywords (agentText info) then
      some name
    else sfrScan queryLower rest

/-- `smart_fallback_routing` of `a2a_langgraph/client/orchestrator.py`:
bucket scan, then first agent; `none` models the `StopIteration` raised by
`next(iter(...))` on an empty store. -/
def smart_fallback_routing (cards : List (String × AgentInfo)) (query : String) :
    Option String :=
  let queryLower := pyStrip (pyLower query)
  match sfrScan queryLower cards with
  | some name => some name
  | none => cards.head?.map Prod.fst

/-! ### `smart_fallback_routing` (a2a_search variant, tag-aware) -/

/-- The per-agent scan of the tag-aware `smart_fallback_routing`: time
bucket, greeting bucket, then the generic rule
`any(tag in query_lower for tag in info.get('tags', []))`. -/
def searchSfrScan (queryLower : String) : List (String × SearchAgentInfo) → Option String
  | [] => none
  | (name, info) :: rest =>
    if queryMatchesTime queryLower && textHasAny timeAgentKeywords (searchAgentText info) then
      some name
    else if queryMatchesGreet queryLower && textHasAny greetAgentKeywords (searchAgentText info) then
      some name
    else if info.tags.any (fun tag => pyIn tag queryLower) then
      some name
    else searchSfrScan queryLower rest

/-- `smart_fallback_routing` of `a2a_search/client/orchestrator.py`. -/
def search_smart_fallback_routing (cards : List (String × SearchAgentInfo))
    (query : String) : Option String :=
  let queryLower := pyStrip (pyLower query)
  match searchSfrScan queryLower cards with
  | some name => some name
  | none => cards.head?.map Prod.fst

/-! ### `get_agents_info` (the textual digest of all descriptors) -/

/-- One skill's lines in the digest:
`"    • {name}: {description}\n"` plus, when examples are present,
`"      Examples: {', '.join(examples[:3])}\n"`. -/
def skillDigestLine (sk : Skill) : String :=
  "    • " ++ sk.name ++ ": " ++ sk.description ++ "\n" ++
    (if sk.examples.isEmpty then ""
     else "      Examples: " ++ String.intercalate ", " (sk.examples.take 3) ++ "\n")

/-- One agent's block in the digest:
`"\n- **{name}**: {description}\n"` plus, when skills are present,
`"  Skills:\n"` and the per-skill lines. -/
def agentDigestBlock (name : String) (info : AgentInfo) : String :=
  "\n- **" ++ name ++ "**: " ++ info.description ++ "\n" ++
    (if info.skills.isEmpty then ""
     else "  Skills:\n" ++ String.join (info.skills.map skillDigestLine))

/-- `IntelligentAgentRegistry.get_agents_info`: the fixed sentinel on an
empty store, otherwise `"Available agents:\n"` followed by each agent's
block in store iteration order. -/
def get_agents_info (cards : List (String × AgentInfo)) : String :=
  if cards.isEmpty then "No agents available."
  else "Available agents:\n" ++
    String.join (cards.map fun p => agentDigestBlock p.1 p.2)

/-! ### Dispatch response normalization (`send_to_agent`) -/

/-- A text part of an artifact (the code reads `parts[0].root.text`). -/
structure Part where
  text : String
deriving DecidableEq, Repr

/-- An artifact of the task returned by a dispatch call. -/
structure Artifact where
  parts : List Part
deriving DecidableEq, Repr

/-- The task object `response.root.result`: the fields `send_to_agent`
reads, plus the SDK model's always-present `id` and `status` fields which
drive its string rendering. -/
structure Task where
  id : String
  status : String
  artifacts : List Artifact
deriving DecidableEq, Repr

/-- Models Python `str(task)` for the external SDK pydantic `Task` model:
pydantic renders a model as the space-joined `field=value` pieces of its
set fields, and `Task` always carries its required `id` and `status`
fields, so the rendering always starts with "id=". -/
def strTask (t : Task) : String :=
  "id=" ++ t.id ++ " status=" ++ t.status ++
    " artifacts=" ++ toString (repr t.artifacts)

/-- A dispatch reply: either an envelope with `response.root.result`
present (a task), or some other shape, carried with its `str()` rendering
payload (the pydantic root-model rendering `root=...`). -/
inductive A2AResponse where
  | withResult (task : Task)
  | other (root : String)
deriving DecidableEq, Repr

/-- Models Python `str(response)` for a reply without `root.result`: the
pydantic root-model rendering, which always starts with `root=`. -/
def strResponse (root : String) : String :=
  "root=" ++ root

/-- The response-extraction tail of `send_to_agent`: first text part of
the first artifact when present, otherwise `str(task)` resp.
`str(response)`. -/
def extract_response : A2AResponse → String
  | .withResult task =>
    match task.artifacts with
    | [] => strTask task
    | a0 :: _ =>
      match a0.parts with
      | [] => strTask task
      | p0 :: _ => p0.text
  | .other root => strResponse root

/-- Outcome of the wire-level `client.send_message(request)` call:
either a reply, or a transport-level exception with its message. -/
inductive TransportOutcome where
  | ok (resp : A2AResponse)
  | exn (msg : String)
deriving DecidableEq, Repr

/-- `send_to_agent`: no live client yields the "not available" string;
otherwise the reply is normalized, and any exception during delivery is
caught and turned into the error-prefixed string. -/
def send_to_agent (clients : List String) (transport : TransportOutcome)
    (agentName : String) : String :=
  if clients.contains agentName then
    match transport with
    | .ok resp => extract_response resp
    | .exn msg => "❌ Error: " ++ msg
  else "❌ Agent " ++ agentName ++ " not available"

/-! ### `intelligent_route_query` -/

/-- The list-agents control phrases. -/
def listPhrases : List String := ["list", "agents", "list agents", "show agents"]

/-- Outcome of `call_gemini_api`: `noKey` models the `None` returned when
`GOOGLE_API_KEY` is absent, `reply` a returned text (possibly empty), and
`failure` a raised exception. -/
inductive GeminiOutcome where
  | noKey
  | reply (text : String)
  | failure (msg : String)
deriving DecidableEq, Repr

/-- The routing decision taken by `intelligent_route_query` before any
dispatch: a terminal digest answer, the terminal no-agents answer, or the
name of the agent that will be dispatched to. -/
inductive RouteOutcome where
  | listing (digest : String)
  | noAgents
  | dispatchTo (agent : String)
deriving DecidableEq, Repr

/-- The LLM-candidate stage of `intelligent_route_query`, reached with a
non-empty store: on a returned text (`if gemini_response:` truthy), strip
and lowercase it, select it when it is exactly a known key, otherwise take
the first key related to it by substring in either direction; in every
remaining case (no API key, exception, empty text, unmatchable name) fall
through to `smart_fallback_routing`. -/
def llm_candidate_stage (cards : List (String × AgentInfo)) (query : String) :
    GeminiOutcome → Option RouteOutcome
  | .noKey => (smart_fallback_routing cards query).map .dispatchTo
  | .failure _ => (smart_fallback_routing cards query).map .dispatchTo
  | .reply text =>
    if text.isEmpty then (smart_fallback_routing cards query).map .dispatchTo
    else
      if cards.any (fun p => p.1 == pyLower (pyStrip text)) then
        some (.dispatchTo (pyLower (pyStrip text)))
      else
        match cards.find? (fun p =>
            pyIn p.1 (pyLower (pyStrip text)) || pyIn (pyLower (pyStrip text)) p.1) with
        | some p => some (.dispatchTo p.1)
        | none => (smart_fallback_routing cards query).map .dispatchTo

/-- The decision structure of `intelligent_route_query` (which agent, if
any, the query is sent to): list-agents shortcut, empty-store check, then
the LLM-candidate stage. `none` models an uncaught exception. -/
def route_decision (cards : List (String × AgentInfo)) (query : String)
    (llm : GeminiOutcome) : Option RouteOutcome :=
  if listPhrases.contains (pyStrip (pyLower query)) then
    some (.listing (get_agents_info cards))
  else if cards.isEmpty then
    some .noAgents
  else
    llm_candidate_stage cards query llm

/-- `intelligent_route_query` end to end: the final answer string paired
with the list of agent names actually dispatched to (empty on terminal
outcomes). -/
def run_route (cards : List (String × AgentInfo)) (clients : List String)
    (query : String) (llm : GeminiOutcome) (transport : TransportOutcome) :
    Option (String × List String) :=
  match route_decision cards query llm with
  | none => none
  | some (.listing digest) => some (digest, [])
  | some .noAgents => some ("❌ No agents available", [])
  | some (.dispatchTo agent) =>
      some (send_to_agent clients transport agent, [agent])

/-! ### Registry state, `load_registry`, `discover_agents` -/

/-- Reason a capability fetch failed; the code catches all of these the
same way. -/
inductive FetchReason where
  | timeout
  | malformedBody
  | connectionRefused
deriving DecidableEq, Repr

/-- The mutable state of an `IntelligentAgentRegistry`: the raw
name→endpoint mapping `agents`, the descriptor store `agent_cards`, and
the set of names with a live client in `clients`, all in insertion
order. -/
structure RegState where
  agents : List (String × String)
  cards : List (String × AgentInfo)
  clients : List String
deriving DecidableEq, Repr

/-- The registry's initial state (`__init__`): all maps empty. -/
def initState : RegState :=
  { agents := [], cards := [], clients := [] }

/-- Python dict assignment `d[k] = v`: replace the value in place if the
key exists (keeping its position), else append. -/
def dictInsert (k : String) (v : α) : List (String × α) → List (String × α)
  | [] => [(k, v)]
  | (k2, v2) :: rest =>
    if k2 == k then (k2, v) :: rest else (k2, v2) :: dictInsert k v rest

/-- Insertion into the client name set (`self.clients[name] = ...`). -/
def setInsert (n : String) (l : List String) : List String :=
  if l.contains n then l else l ++ [n]

/-- `load_registry`: the outcome of `open` + `json.load` on the registry
file is the `src` argument; on success the raw mapping is replaced and
`True` returned, on any exception the state is untouched and `False`
returned. -/
def load_registry (src : Except String (List (String × String)))
    (s : RegState) : Bool × RegState :=
  match src with
  | .ok m => (true, { s with agents := m })
  | .error _ => (false, s)

/-- The per-agent loop of `discover_agents`: walk the raw mapping in
order; on a successful fetch store the card dict and client and count it;
on any failure skip that agent and continue. -/
def discoverGo (fetch : String → String → Except FetchReason AgentCard) :
    List (String × String) → RegState → Nat × RegState
  | [], s => (0, s)
  | (name, url) :: rest, s =>
    match fetch name url with
    | .ok card =>
      let s2 := { s with
        cards := dictInsert name (infoOfCard url card) s.cards
        clients := setInsert name s.clients }
      let r := discoverGo fetch rest s2
      (r.1 + 1, r.2)
    | .error _ => discoverGo fetch rest s

/-- `discover_agents`: runs the per-agent loop over `self.agents` and
returns the count of successes together with the updated state. -/
def discover_agents (fetch : String → String → Except FetchReason AgentCard)
    (s : RegState) : Nat × RegState :=
  discoverGo fetch s.agents s

/-- An operation on the registry object: a `load_registry` call (with the
outcome of reading its configuration source) or a `discover_agents` call
(with the behaviour of the per-agent capability fetch). -/
inductive Op where
  | load (src : Except String (List (String × String)))
  | discover (fetch : String → String → Except FetchReason AgentCard)

/-- Apply one operation to the registry state. -/
def applyOp (s : RegState) : Op → RegState
  | .load src => (load_registry src s).2
  | .discover fetch => (discover_agents fetch s).2

/-- Run a sequence of registry operations from a starting state. -/
def runOps (s : RegState) (ops : List Op) : RegState :=
  ops.foldl applyOp s

/-- Startup outcome of `client_main` / `main`: failed load, zero agents
discovered, or ready with the discovered count and resulting state. -/
inductive StartOutcome where
  | loadFailed
  | noAgentsConnected
  | ready (discovered : Nat) (s : RegState)
deriving DecidableEq, Repr

/-- The startup sequence of `client_main` (and `main`): load the registry
and stop on failure; otherwise discover and stop when zero agents
connected. Discovery is reached only after a successful load. -/
def client_main (src : Except String (List (String × String)))
    (fetch : String → String → Except FetchReason AgentCard) : StartOutcome :=
  let r := load_registry src initState
  if r.1 then
    let d := discover_agents fetch r.2
    if d.1 = 0 then .noAgentsConnected else .ready d.1 d.2
  else .loadFailed

/-! ### The interactive loop -/

/-- The interactive read-eval-print loop of `main` / `client_main`: each
element of the input list is one line read from the user together with
the LLM and transport behaviour for that iteration. The line is stripped;
an empty result or `exit`/`quit` breaks the loop; otherwise the query is
routed and its `(answer, dispatched agents)` recorded. -/
def runLoop (cards : List (String × AgentInfo)) (clients : List String) :
    List (String × GeminiOutcome × TransportOutcome) → List (String × List String)
  | [] => []
  | (line, llm, transport) :: rest =>
    if (pyStrip line).isEmpty || ["exit", "quit"].contains (pyLower (pyStrip line)) then []
    else
      match run_route cards clients (pyStrip line) llm transport with
      | some r => r :: runLoop cards clients rest
      | none => []

/-! ### Auxiliary definitions used by the theorems -/

/-- `exceptOk r` is `true` exactly when the fetch succeeded. -/
def exceptOk : Except ε α → Bool
  | .ok _ => true
  | .error _ => false

/-- The per-agent test applied by the langgraph `smart_fallback_routing`
scan: the agent is selected when the query matches the time bucket and
the agent's text carries a time keyword, or likewise for greetings. -/
def agentSelected (queryLower : String) (p : String × AgentInfo) : Bool :=
  (queryMatchesTime queryLower && textHasAny timeAgentKeywords (agentText p.2)) ||
    (queryMatchesGreet queryLower && textHasAny greetAgentKeywords (agentText p.2))

/-- The per-agent test applied by the tag-aware `smart_fallback_routing`
scan: the two bucket tests plus the generic rule selecting any agent one
of whose raw tags occurs as a substring of the query. -/
def searchAgentSelected (queryLower : String) (p : String × SearchAgentInfo) : Bool :=
  (queryMatchesTime queryLower && textHasAny timeAgentKeywords (searchAgentText p.2)) ||
    (queryMatchesGreet queryLower && textHasAny greetAgentKeywords (searchAgentText p.2)) ||
    p.2.tags.any (fun tag => pyIn tag queryLower)

/-- Modelled from the spec's words (§4.3 stage 3), as the reference point
of the refinement claim about the keyword fallback: first classify the
query into one matched bucket (the time bucket is tested first, then the
greeting bucket), then scan descriptors in store iteration order for one
whose description, concatenated skill text, or tags contain a
bucket-specific keyword; `none` when no bucket or no descriptor matches
(fall through to stage 4). -/
def spec_keyword_fallback (cards : List (String × SearchAgentInfo))
    (query : String) : Option String :=
  let queryLower := pyStrip (pyLower query)
  if queryMatchesTime queryLower then
    (cards.find? fun p => textHasAny timeAgentKeywords (searchAgentText p.2)).map Prod.fst
  else if queryMatchesGreet queryLower then
    (cards.find? fun p => textHasAny greetAgentKeywords (searchAgentText p.2)).map Prod.fst
  else none

/-- The Scenario A store: `time_agent` advertising tags
`["time", "clock"]` and `greeting_agent` advertising tags
`["greeting", "hello"]`, in registry order. -/
def scenarioAStore : List (String × SearchAgentInfo) :=
  [("time_agent",
    { url := "http://localhost:6000", description := "", name := "time_agent",
      skills := [], tags := ["time", "clock"] }),
   ("greeting_agent",
    { url := "http://localhost:5000", description := "", name := "greeting_agent",
      skills := [], tags := ["greeting", "hello"] })]

/-- A store on which the code's keyword fallback and the spec's bucketed
scan disagree: the first agent has the tag `"it"` (a substring of the
query) but no bucket keyword, the second carries the time keywords. -/
def tagRuleStore : List (String × SearchAgentInfo) :=
  [("web_agent",
    { url := "http://localhost:7000", description := "", name := "web_agent",
      skills := [], tags := ["it"] }),
   ("time_agent",
    { url := "http://localhost:6000", description := "Tells the current time",
      name := "time_agent", skills := [], tags := ["time", "clock"] })]

/-- An operation trace on the registry object: a successful load, a fully
successful discovery pass, then a second successful load of an empty
mapping. -/
def reloadOps : List Op :=
  [Op.load (.ok [("time_agent", "http://localhost:6000")]),
   Op.discover (fun _ _ => .ok ⟨"time_agent", "Tells the current time", []⟩),
   Op.load (.ok [])]

/-! ## Helper lemmas -/

theorem sfrScan_mem : ∀ {cards : List (String × AgentInfo)} {ql n : String},
    sfrScan ql cards = some n → n ∈ cards.map Prod.fst := by
  intro cards
  induction cards with
  | nil => intro ql n h; simp [sfrScan] at h
  | cons p rest ih =>
    intro ql n h
    obtain ⟨name, info⟩ := p
    simp only [sfrScan] at h
    split at h
    · simp only [Option.some.injEq] at h
      simp [h]
    · split at h
      · simp only [Option.some.injEq] at h
        simp [h]
      · exact List.mem_cons_of_mem _ (ih h)

theorem smart_fallback_eq (cards : List (String × AgentInfo)) (q : String) :
    smart_fallback_routing cards q =
      match sfrScan (pyStrip (pyLower q)) cards with
      | some name => some name
      | none => cards.head?.map Prod.fst := rfl

theorem smart_fallback_mem {cards : List (String × AgentInfo)} {q n : String}
    (h : smart_fallback_routing cards q = some n) : n ∈ cards.map Prod.fst := by
  rw [smart_fallback_eq] at h
  cases hs : sfrScan (pyStrip (pyLower q)) cards with
  | some m =>
    rw [hs] at h
    simp only [Option.some.injEq] at h
    exact h ▸ sfrScan_mem hs
  | none =>
    rw [hs] at h
    cases cards with
    | nil => simp at h
    | cons p rest =>
      have h2 : p.1 = n := Option.some.inj h
      exact h2 ▸ List.mem_map_of_mem Prod.fst (List.mem_cons_self p rest)

theorem smart_fallback_isSome (cards : List (String × AgentInfo)) (q : String)
    (hc : cards ≠ []) : (smart_fallback_routing cards q).isSome = true := by
  rw [smart_fallback_eq]
  cases hs : sfrScan (pyStrip (pyLower q)) cards with
  | some m => simp
  | none =>
    cases cards with
    | nil => exact absurd rfl hc
    | cons p rest => simp

theorem sfrScan_none_of_no_bucket {ql : String} (cards : List (String × AgentInfo))
    (ht : queryMatchesTime ql = false) (hg : queryMatchesGreet ql = false) :
    sfrScan ql cards = none := by
  induction cards with
  | nil => rfl
  | cons p rest ih =>
    obtain ⟨name, info⟩ := p
    simp [sfrScan, ht, hg, ih]

theorem smart_fallback_first_of_no_bucket (cards : List (String × AgentInfo))
    (q : String) (ht : queryMatchesTime (pyStrip (pyLower q)) = false)
    (hg : queryMatchesGreet (pyStrip (pyLower q)) = false) :
    smart_fallback_routing cards q = cards.head?.map Prod.fst := by
  rw [smart_fallback_eq, sfrScan_none_of_no_bucket cards ht hg]

theorem llm_stage_isSome (cards : List (String × AgentInfo)) (query : String)
    (llm : GeminiOutcome) (hc : cards ≠ []) :
    (llm_candidate_stage cards query llm).isSome = true := by
  have hvia : ((smart_fallback_routing cards query).map RouteOutcome.dispatchTo).isSome = true := by
    have h := smart_fallback_isSome cards query hc
    cases hs : smart_fallback_routing cards query
    · rw [hs] at h; simp at h
    · simp
  cases llm with
  | noKey => simpa [llm_candidate_stage] using hvia
  | failure m => simpa [llm_candidate_stage] using hvia
  | reply t =>
    simp only [llm_candidate_stage]
    by_cases hne : t.isEmpty = true
    · rw [hne]
      simpa using hvia
    · simp only [Bool.not_eq_true] at hne
      rw [hne]
      simp only [Bool.false_eq_true, if_false]
      by_cases hx : cards.any (fun p => p.1 == pyLower (pyStrip t)) = true
      · rw [hx]
        simp
      · simp only [Bool.not_eq_true] at hx
        rw [hx]
        simp only [Bool.false_eq_true, if_false]
        cases hf : cards.find? (fun p =>
            pyIn p.1 (pyLower (pyStrip t)) || pyIn (pyLower (pyStrip t)) p.1) with
        | some p => simp
        | none => exact hvia

theorem route_decision_isSome (cards : List (String × AgentInfo))
    (query : String) (llm : GeminiOutcome) :
    (route_decision cards query llm).isSome = true := by
  unfold route_decision
  by_cases hl : listPhrases.contains (pyStrip (pyLower query)) = true
  · rw [hl]
    simp
  · simp only [Bool.not_eq_true] at hl
    rw [hl]
    simp only [Bool.false_eq_true, if_false]
    by_cases he : cards.isEmpty = true
    · rw [he]
      simp
    · simp only [Bool.not_eq_true] at he
      rw [he]
      simp only [Bool.false_eq_true, if_false]
      have hc : cards ≠ [] := by cases cards <;> simp_all
      exact llm_stage_isSome cards query llm hc

theorem llm_stage_mem {cards : List (String × AgentInfo)} {query n : String}
    {llm : GeminiOutcome}
    (h : llm_candidate_stage cards query llm = some (.dispatchTo n)) :
    n ∈ cards.map Prod.fst := by
  have hvia : (smart_fallback_routing cards query).map RouteOutcome.dispatchTo
      = some (.dispatchTo n) → n ∈ cards.map Prod.fst := by
    intro hm
    cases hs : smart_fallback_routing cards query with
    | none => rw [hs] at hm; simp at hm
    | some m =>
      rw [hs] at hm
      have h2 : m = n := RouteOutcome.dispatchTo.inj (Option.some.inj hm)
      exact h2 ▸ smart_fallback_mem hs
  cases llm with
  | noKey => exact hvia (by simpa [llm_candidate_stage] using h)
  | failure m => exact hvia (by simpa [llm_candidate_stage] using h)
  | reply t =>
    simp only [llm_candidate_stage] at h
    by_cases hne : t.isEmpty = true
    · rw [hne] at h
      exact hvia h
    · simp only [Bool.not_eq_true] at hne
      rw [hne] at h
      simp only [Bool.false_eq_true, if_false] at h
      by_cases hx : cards.any (fun p => p.1 == pyLower (pyStrip t)) = true
      · rw [hx] at h
        have h2 : pyLower (pyStrip t) = n :=
          RouteOutcome.dispatchTo.inj (Option.some.inj h)
        obtain ⟨p, hp, hpe⟩ := List.any_eq_true.mp hx
        simp only [beq_iff_eq] at hpe
        exact h2 ▸ hpe ▸ List.mem_map_of_mem Prod.fst hp
      · simp only [Bool.not_eq_true] at hx
        rw [hx] at h
        simp only [Bool.false_eq_true, if_false] at h
        cases hf : cards.find? (fun p =>
            pyIn p.1 (pyLower (pyStrip t)) || pyIn (pyLower (pyStrip t)) p.1) with
        | some p =>
          rw [hf] at h
          have h2 : p.1 = n := RouteOutcome.dispatchTo.inj (Option.some.inj h)
          exact h2 ▸ List.mem_map_of_mem Prod.fst (List.mem_of_find?_eq_some hf)
        | none =>
          rw [hf] at h
          exact hvia h

theorem route_decision_mem {cards : List (String × AgentInfo)}
    {query n : String} {llm : GeminiOutcome}
    (h : route_decision cards query llm = some (.dispatchTo n)) :
    n ∈ cards.map Prod.fst := by
  unfold route_decision at h
  by_cases hl : listPhrases.contains (pyStrip (pyLower query)) = true
  · rw [hl] at h
    simp at h
  · simp only [Bool.not_eq_true] at hl
    rw [hl] at h
    simp only [Bool.false_eq_true, if_false] at h
    by_cases he : cards.isEmpty = true
    · rw [he] at h
      simp at h
    · simp only [Bool.not_eq_true] at he
      rw [he] at h
      simp only [Bool.false_eq_true, if_false] at h
      exact llm_stage_mem h

/-! ## Claims -/

/-- C1: for every fixed descriptor store and every query that is not a
list-agents control phrase, `intelligent_route_query` returns the
terminal no-agents outcome on an empty store; with a non-empty store and
a failed or unavailable LLM call it selects exactly the keyword-fallback
result; when additionally no keyword bucket matches the query it selects
the first entry in store iteration order; and the matcher never raises in
any of these cases. -/
theorem C1_fallback_chain (cards : List (String × AgentInfo)) (query : String)
    (hq : listPhrases.contains (pyStrip (pyLower query)) = false) :
    (cards = [] → ∀ llm, route_decision cards query llm = some .noAgents)
    ∧ (cards ≠ [] → ∀ msg,
        route_decision cards query .noKey
          = (smart_fallback_routing cards query).map RouteOutcome.dispatchTo
        ∧ route_decision cards query (.failure msg)
          = (smart_fallback_routing cards query).map RouteOutcome.dispatchTo)
    ∧ (cards ≠ [] →
        queryMatchesTime (pyStrip (pyLower query)) = false →
        queryMatchesGreet (pyStrip (pyLower query)) = false →
        route_decision cards query .noKey
          = cards.head?.map (fun p => RouteOutcome.dispatchTo p.1))
    ∧ (∀ llm, (route_decision cards query llm).isSome = true) := by
  refine ⟨?_, ?_, ?_, ?_⟩
  · intro hc llm
    subst hc
    unfold route_decision
    rw [hq]
    simp
  · intro hc msg
    have he : cards.isEmpty = false := by cases cards <;> simp_all
    constructor <;>
      · unfold route_decision
        rw [hq]
        simp only [Bool.false_eq_true, if_false]
        rw [he]
        simp only [Bool.false_eq_true, if_false]
        rfl
  · intro hc ht hg
    have he : cards.isEmpty = false := by cases cards <;> simp_all
    unfold route_decision
    rw [hq]
    simp only [Bool.false_eq_true, if_false]
    rw [he]
    simp only [Bool.false_eq_true, if_false]
    show llm_candidate_stage cards query .noKey = _
    simp only [llm_candidate_stage]
    rw [smart_fallback_first_of_no_bucket cards query ht hg]
    cases cards with
    | nil => simp
    | cons p rest => simp [List.head?]
  · intro llm
    exact route_decision_isSome cards query llm

/-- C1 witness: a one-agent store and the bucket-free query
"what is the weather" with no LLM key select the first (only) agent. -/
theorem C1_fallback_chain_witness :
    route_decision [("w_agent", ⟨"u", "", "w_agent", []⟩)] "what is the weather" .noKey
      = some (.dispatchTo "w_agent") := by
  have h := (C1_fallback_chain [("w_agent", ⟨"u", "", "w_agent", []⟩)]
      "what is the weather" (by decide)).2.2.1 (by decide) (by decide) (by decide)
  rw [h]
  rfl

/-- C3: a query whose lowercased and stripped form is one of the
list-agents control phrases makes the matcher return the textual digest
as the final answer with no dispatch, for every store including the empty
one, whose digest is the fixed sentinel string. -/
theorem C3_list_agents_shortcut (cards : List (String × AgentInfo))
    (clients : List String) (query : String) (llm : GeminiOutcome)
    (transport : TransportOutcome)
    (hq : listPhrases.contains (pyStrip (pyLower query)) = true) :
    run_route cards clients query llm transport = some (get_agents_info cards, [])
    ∧ get_agents_info [] = "No agents available." := by
  constructor
  · unfold run_route route_decision
    rw [hq]
    simp
  · rfl

/-- C3 witness: the query "list agents" on the empty store yields the
sentinel digest and dispatches to nobody even with a broken transport. -/
theorem C3_list_agents_shortcut_witness :
    run_route [] [] "list agents" .noKey (.exn "connection refused")
      = some ("No agents available.", []) := by
  have h := C3_list_agents_shortcut [] [] "list agents" .noKey
      (.exn "connection refused") (by decide)
  rw [h.1, h.2]

/-- C4: a non-empty LLM response is stripped and lowercased; an exact
key match selects that agent; otherwise the first agent related to the
candidate by substring containment in either direction is selected; and
when neither match exists, or the call failed or returned empty, the
matcher falls through to the keyword-fallback stage instead of raising. -/
theorem C4_llm_candidate_handling (cards : List (String × AgentInfo))
    (query text : String)
    (hq : listPhrases.contains (pyStrip (pyLower query)) = false)
    (hc : cards.isEmpty = false)
    (ht : text.isEmpty = false) :
    (cards.any (fun p => p.1 == pyLower (pyStrip text)) = true →
       route_decision cards query (.reply text)
         = some (.dispatchTo (pyLower (pyStrip text))))
    ∧ (cards.any (fun p => p.1 == pyLower (pyStrip text)) = false →
       ∀ p, cards.find? (fun r =>
           pyIn r.1 (pyLower (pyStrip text)) || pyIn (pyLower (pyStrip text)) r.1)
             = some p →
         route_decision cards query (.reply text) = some (.dispatchTo p.1))
    ∧ (cards.any (fun p => p.1 == pyLower (pyStrip text)) = false →
       cards.find? (fun r =>
           pyIn r.1 (pyLower (pyStrip text)) || pyIn (pyLower (pyStrip text)) r.1)
             = none →
         route_decision cards query (.reply text)
           = (smart_fallback_routing cards query).map RouteOutcome.dispatchTo)
    ∧ (∀ msg, route_decision cards query (.failure msg)
         = (smart_fallback_routing cards query).map RouteOutcome.dispatchTo)
    ∧ (route_decision cards query (.reply "")
         = (smart_fallback_routing cards query).map RouteOutcome.dispatchTo)
    ∧ (∀ llm, (route_decision cards query llm).isSome = true) := by
  have hred : ∀ llm, route_decision cards query llm = llm_candidate_stage cards query llm := by
    intro llm
    unfold route_decision
    rw [hq]
    simp only [Bool.false_eq_true, if_false]
    rw [hc]
    simp only [Bool.false_eq_true, if_false]
  refine ⟨?_, ?_, ?_, ?_, ?_, ?_⟩
  · intro hx
    rw [hred]
    simp only [llm_candidate_stage]
    rw [ht]
    simp only [Bool.false_eq_true, if_false]
    rw [hx]
    simp
  · intro hx p hf
    rw [hred]
    simp only [llm_candidate_stage]
    rw [ht]
    simp only [Bool.false_eq_true, if_false]
    rw [hx]
    simp only [Bool.false_eq_true, if_false]
    rw [hf]
  · intro hx hf
    rw [hred]
    simp only [llm_candidate_stage]
    rw [ht]
    simp only [Bool.false_eq_true, if_false]
    rw [hx]
    simp only [Bool.false_eq_true, if_false]
    rw [hf]
  · intro msg
    rw [hred]
    rfl
  · rw [hred]
    rfl
  · intro llm
    exact route_decision_isSome cards query llm

/-- C4 witness: the LLM response "  Time_Agent " normalizes to the exact
key "time_agent", which is selected. -/
theorem C4_llm_candidate_handling_witness :
    route_decision
        [("time_agent", ⟨"u6", "", "time_agent", []⟩),
         ("greeting_agent", ⟨"u5", "", "greeting_agent", []⟩)]
        "route me" (.reply "  Time_Agent ")
      = some (.dispatchTo "time_agent") := by
  have h := (C4_llm_candidate_handling
      [("time_agent", ⟨"u6", "", "time_agent", []⟩),
       ("greeting_agent", ⟨"u5", "", "greeting_agent", []⟩)]
      "route me" "  Time_Agent " (by decide) (by decide) (by decide)).1 (by decide)
  rw [h]
  rfl

theorem search_smart_fallback_eq (cards : List (String × SearchAgentInfo)) (q : String) :
    search_smart_fallback_routing cards q =
      match searchSfrScan (pyStrip (pyLower q)) cards with
      | some name => some name
      | none => cards.head?.map Prod.fst := rfl

theorem searchSfrScan_eq_find (ql : String) :
    ∀ cards : List (String × SearchAgentInfo),
    searchSfrScan ql cards = (cards.find? (searchAgentSelected ql)).map Prod.fst := by
  intro cards
  induction cards with
  | nil => rfl
  | cons p rest ih =>
    obtain ⟨name, info⟩ := p
    by_cases h1 : (queryMatchesTime ql && textHasAny timeAgentKeywords (searchAgentText info)) = true
    · simp [searchSfrScan, List.find?, searchAgentSelected, h1]
    · simp only [Bool.not_eq_true] at h1
      by_cases h2 : (queryMatchesGreet ql && textHasAny greetAgentKeywords (searchAgentText info)) = true
      · simp [searchSfrScan, List.find?, searchAgentSelected, h1, h2]
      · simp only [Bool.not_eq_true] at h2
        by_cases h3 : (info.tags.any (fun tag => pyIn tag ql)) = true
        · simp [searchSfrScan, List.find?, searchAgentSelected, h1, h2, h3]
        · simp only [Bool.not_eq_true] at h3
          simp [searchSfrScan, List.find?, searchAgentSelected, h1, h2, h3, ih]

theorem sfrScan_eq_find (ql : String) :
    ∀ cards : List (String × AgentInfo),
    sfrScan ql cards = (cards.find? (agentSelected ql)).map Prod.fst := by
  intro cards
  induction cards with
  | nil => rfl
  | cons p rest ih =>
    obtain ⟨name, info⟩ := p
    by_cases h1 : (queryMatchesTime ql && textHasAny timeAgentKeywords (agentText info)) = true
    · simp [sfrScan, List.find?, agentSelected, h1]
    · simp only [Bool.not_eq_true] at h1
      by_cases h2 : (queryMatchesGreet ql && textHasAny greetAgentKeywords (agentText info)) = true
      · simp [sfrScan, List.find?, agentSelected, h1, h2]
      · simp only [Bool.not_eq_true] at h2
        simp [sfrScan, List.find?, agentSelected, h1, h2, ih]

/-- C2 counterexample: on the `tagRuleStore` the generic tag rule of the
code's keyword fallback selects `web_agent` (its tag "it" occurs in the
query) although the first descriptor carrying a time-bucket keyword in
its description, skill text or tags is `time_agent`, which the claim's
bucketed scan (`spec_keyword_fallback`) selects. -/
theorem C2_keyword_fallback_counterexample :
    search_smart_fallback_routing tagRuleStore "What time is it?" = some "web_agent"
    ∧ spec_keyword_fallback tagRuleStore "What time is it?" = some "time_agent"
    ∧ search_smart_fallback_routing tagRuleStore "What time is it?"
        ≠ spec_keyword_fallback tagRuleStore "What time is it?" :=
  ⟨by decide, by decide, by decide⟩

/-- C2 amended: the keyword-fallback stage scans descriptors in store
iteration order and selects the first descriptor passing any of its
per-descriptor tests — a bucket the query matches whose descriptor
keywords occur in the description, concatenated skill text or (tag-aware
variant) tags, or, in the tag-aware variant only, a raw tag that occurs
as a substring of the query — falling back to the first descriptor; with
the Scenario A store and the LLM disabled, "What time is it?" selects
`time_agent`. -/
theorem C2_keyword_fallback_amended :
    (∀ (cards : List (String × SearchAgentInfo)) (query : String),
       (queryMatchesTime (pyStrip (pyLower query))
         || queryMatchesGreet (pyStrip (pyLower query))) = true →
       search_smart_fallback_routing cards query
         = match cards.find? (searchAgentSelected (pyStrip (pyLower query))) with
           | some p => some p.1
           | none => cards.head?.map Prod.fst)
    ∧ (∀ (cards : List (String × AgentInfo)) (query : String),
       (queryMatchesTime (pyStrip (pyLower query))
         || queryMatchesGreet (pyStrip (pyLower query))) = true →
       smart_fallback_routing cards query
         = match cards.find? (agentSelected (pyStrip (pyLower query))) with
           | some p => some p.1
           | none => cards.head?.map Prod.fst)
    ∧ search_smart_fallback_routing scenarioAStore "What time is it?" = some "time_agent" := by
  refine ⟨?_, ?_, by decide⟩
  · intro cards query hb
    rw [search_smart_fallback_eq, searchSfrScan_eq_find]
    cases hf : cards.find? (searchAgentSelected (pyStrip (pyLower query))) <;> simp
  · intro cards query hb
    rw [smart_fallback_eq, sfrScan_eq_find]
    cases hf : cards.find? (agentSelected (pyStrip (pyLower query))) <;> simp

/-- C2 amended witness: Scenario B — "Hello there" on the Scenario A
store selects `greeting_agent` through the greeting bucket. -/
theorem C2_keyword_fallback_amended_witness :
    search_smart_fallback_routing scenarioAStore "Hello there"
      = some "greeting_agent" := by
  have h := C2_keyword_fallback_amended.1 scenarioAStore "Hello there" (by decide)
  rw [h]
  decide

theorem dictInsert_of_not_mem {k : String} (v : α) :
    ∀ {l : List (String × α)}, k ∉ l.map Prod.fst →
    dictInsert k v l = l ++ [(k, v)] := by
  intro l
  induction l with
  | nil => intro _; rfl
  | cons p rest ih =>
    intro h
    obtain ⟨k2, v2⟩ := p
    simp only [List.map, List.mem_cons, not_or] at h
    obtain ⟨h1, h2⟩ := h
    have hb : (k2 == k) = false := beq_eq_false_iff_ne.mpr fun he => h1 (he.symm)
    simp only [dictInsert, hb, Bool.false_eq_true, if_false, List.cons_append,
      List.cons.injEq, true_and]
    exact ih h2

theorem mem_fst_dictInsert {n k : String} (v : α) :
    ∀ (l : List (String × α)),
    (n ∈ (dictInsert k v l).map Prod.fst ↔ n = k ∨ n ∈ l.map Prod.fst) := by
  intro l
  induction l with
  | nil => simp [dictInsert]
  | cons p rest ih =>
    obtain ⟨k2, v2⟩ := p
    by_cases h : (k2 == k) = true
    · simp only [beq_iff_eq] at h
      subst h
      simp only [dictInsert, beq_self_eq_true, if_true, List.map, List.mem_cons]
      tauto
    · simp only [Bool.not_eq_true] at h
      simp only [dictInsert, h, Bool.false_eq_true, if_false, List.map, List.mem_cons, ih]
      tauto

theorem discoverGo_agents (fetch : String → String → Except FetchReason AgentCard) :
    ∀ (agents : List (String × String)) (s : RegState),
    (discoverGo fetch agents s).2.agents = s.agents := by
  intro agents
  induction agents with
  | nil => intro s; rfl
  | cons p rest ih =>
    intro s
    obtain ⟨name, url⟩ := p
    cases hf : fetch name url with
    | ok card => simp only [discoverGo, hf]; exact ih _
    | error r => simp only [discoverGo, hf]; exact ih _

theorem discoverGo_char (fetch : String → String → Except FetchReason AgentCard) :
    ∀ (agents : List (String × String)) (s : RegState),
    (agents.map Prod.fst).Nodup →
    (∀ n, n ∈ agents.map Prod.fst → n ∉ s.cards.map Prod.fst) →
    (discoverGo fetch agents s).1
      = (agents.filter fun p => exceptOk (fetch p.1 p.2)).length
    ∧ (discoverGo fetch agents s).2.cards
      = s.cards ++ agents.filterMap (fun p =>
          match fetch p.1 p.2 with
          | .ok card => some (p.1, infoOfCard p.2 card)
          | .error _ => none) := by
  intro agents
  induction agents with
  | nil =>
    intro s hnd hdisj
    simp [discoverGo]
  | cons p rest ih =>
    intro s hnd hdisj
    obtain ⟨name, url⟩ := p
    simp only [List.map, List.nodup_cons] at hnd
    obtain ⟨hname, hnd2⟩ := hnd
    cases hf : fetch name url with
    | ok card =>
      have hnotin : name ∉ s.cards.map Prod.fst := hdisj name (by simp)
      have hdisj2 : ∀ n, n ∈ rest.map Prod.fst →
          n ∉ (dictInsert name (infoOfCard url card) s.cards).map Prod.fst := by
        intro n hn hmem
        rcases (mem_fst_dictInsert _ _).mp hmem with he | hin
        · exact hname (he ▸ hn)
        · exact hdisj n (List.mem_cons_of_mem _ hn) hin
      obtain ⟨ihc, ihs⟩ := ih
        { s with cards := dictInsert name (infoOfCard url card) s.cards
                 clients := setInsert name s.clients } hnd2 hdisj2
      constructor
      · simp only [discoverGo, hf, ihc, List.filter, exceptOk, List.length_cons]
      · simp only [discoverGo, hf, ihs]
        simp only [dictInsert_of_not_mem _ hnotin, List.append_assoc,
          List.singleton_append, List.filterMap_cons, hf]
    | error r =>
      have hdisj2 : ∀ n, n ∈ rest.map Prod.fst → n ∉ s.cards.map Prod.fst := by
        intro n hn
        exact hdisj n (List.mem_cons_of_mem _ hn)
      obtain ⟨ihc, ihs⟩ := ih s hnd2 hdisj2
      constructor
      · simp only [discoverGo, hf, ihc, List.filter, exceptOk]
      · simp only [discoverGo, hf, ihs, List.filterMap_cons]

theorem discoverGo_congr {fetch fetch2 : String → String → Except FetchReason AgentCard}
    (hag : ∀ n u, (fetch n u).toOption = (fetch2 n u).toOption) :
    ∀ (agents : List (String × String)) (s : RegState),
    discoverGo fetch agents s = discoverGo fetch2 agents s := by
  intro agents
  induction agents with
  | nil => intro s; rfl
  | cons p rest ih =>
    intro s
    obtain ⟨name, url⟩ := p
    have h := hag name url
    cases hf : fetch name url with
    | ok card =>
      cases hf2 : fetch2 name url with
      | ok card2 =>
        rw [hf, hf2] at h
        simp only [Except.toOption, Option.some.injEq] at h
        subst h
        simp only [discoverGo, hf, hf2, ih]
      | error r =>
        rw [hf, hf2] at h
        simp [Except.toOption] at h
    | error r =>
      cases hf2 : fetch2 name url with
      | ok card2 =>
        rw [hf, hf2] at h
        simp [Except.toOption] at h
      | error r2 =>
        simp only [discoverGo, hf, hf2, ih]

/-- C5: discovery over a raw registry of distinct agent names counts
exactly the successful fetches, fills the store with exactly those
entries in registry order, leaves the raw registry untouched, and its
result is unchanged under any reassignment of the failure reasons:
failures neither abort nor affect discovery of the other agents. -/
theorem C5_discovery_isolation (agents : List (String × String))
    (fetch : String → String → Except FetchReason AgentCard)
    (hnd : (agents.map Prod.fst).Nodup) :
    (discover_agents fetch { initState with agents := agents }).1
      = (agents.filter fun p => exceptOk (fetch p.1 p.2)).length
    ∧ (discover_agents fetch { initState with agents := agents }).2.cards
      = agents.filterMap (fun p =>
          match fetch p.1 p.2 with
          | .ok card => some (p.1, infoOfCard p.2 card)
          | .error _ => none)
    ∧ (discover_agents fetch { initState with agents := agents }).2.agents = agents
    ∧ (∀ fetch2 : String → String → Except FetchReason AgentCard,
        (∀ n u, (fetch n u).toOption = (fetch2 n u).toOption) →
        discover_agents fetch { initState with agents := agents }
          = discover_agents fetch2 { initState with agents := agents }) := by
  obtain ⟨hc, hs⟩ := discoverGo_char fetch agents { initState with agents := agents }
    hnd (by simp [initState])
  refine ⟨hc, by simpa using hs, discoverGo_agents fetch agents _, ?_⟩
  intro fetch2 hag
  exact discoverGo_congr hag agents _

/-- C5 witness: three registered agents of which the middle one times
out; discovery reports 2 and stores exactly the two reachable agents. -/
theorem C5_discovery_isolation_witness :
    (discover_agents
        (fun n _ => if n == "b" then .error .timeout else .ok ⟨n, "", []⟩)
        { initState with agents := [("a", "u1"), ("b", "u2"), ("c", "u3")] }).1 = 2
    ∧ (discover_agents
        (fun n _ => if n == "b" then .error .timeout else .ok ⟨n, "", []⟩)
        { initState with agents := [("a", "u1"), ("b", "u2"), ("c", "u3")] }).2.cards.map
          Prod.fst = ["a", "c"] := by
  have h := C5_discovery_isolation [("a", "u1"), ("b", "u2"), ("c", "u3")]
      (fun n _ => if n == "b" then .error .timeout else .ok ⟨n, "", []⟩) (by decide)
  constructor
  · rw [h.1]
    decide
  · rw [h.2.1]
    decide

theorem mem_cards_discoverGo (fetch : String → String → Except FetchReason AgentCard) :
    ∀ (agents : List (String × String)) (s : RegState) (n : String),
    n ∈ (discoverGo fetch agents s).2.cards.map Prod.fst →
    n ∈ s.cards.map Prod.fst ∨ ∃ u, (n, u) ∈ agents ∧ exceptOk (fetch n u) = true := by
  intro agents
  induction agents with
  | nil =>
    intro s n h
    exact Or.inl h
  | cons p rest ih =>
    intro s n h
    obtain ⟨name, url⟩ := p
    cases hf : fetch name url with
    | ok card =>
      simp only [discoverGo, hf] at h
      rcases ih _ n h with hin | ⟨u, hu, hok⟩
      · rcases (mem_fst_dictInsert _ _).mp hin with he | hin2
        · subst he
          exact Or.inr ⟨url, List.mem_cons_self _ _, by simp [hf, exceptOk]⟩
        · exact Or.inl hin2
      · exact Or.inr ⟨u, List.mem_cons_of_mem _ hu, hok⟩
    | error r =>
      simp only [discoverGo, hf] at h
      rcases ih s n h with hin | ⟨u, hu, hok⟩
      · exact Or.inl hin
      · exact Or.inr ⟨u, List.mem_cons_of_mem _ hu, hok⟩

theorem runOps_discover_subset (m : List (String × String)) :
    ∀ (fs : List (String → String → Except FetchReason AgentCard)) (s : RegState),
    s.agents = m →
    (∀ n, n ∈ s.cards.map Prod.fst → n ∈ m.map Prod.fst) →
    (runOps s (fs.map Op.discover)).agents = m
    ∧ ∀ n, n ∈ (runOps s (fs.map Op.discover)).cards.map Prod.fst →
        n ∈ m.map Prod.fst := by
  intro fs
  induction fs with
  | nil =>
    intro s h1 h2
    exact ⟨h1, h2⟩
  | cons f rest ih =>
    intro s h1 h2
    simp only [List.map, runOps, List.foldl]
    apply ih
    · show (discover_agents f s).2.agents = m
      rw [show (discover_agents f s).2.agents = s.agents from discoverGo_agents f s.agents s]
      exact h1
    · intro n hn
      rcases mem_cards_discoverGo f s.agents s n hn with hin | ⟨u, hu, _⟩
      · exact h2 n hin
      · rw [h1] at hu
        exact List.mem_map_of_mem Prod.fst hu

/-- C8 counterexample: after a successful load, a successful discovery,
and a second successful load of an empty mapping (`reloadOps`), the
descriptor store still holds `time_agent` while the raw registry mapping
is empty, so the store is not a subset of the registry after this
sequence of load and discovery operations. -/
theorem C8_store_invariant_counterexample :
    "time_agent" ∈ (runOps initState reloadOps).cards.map Prod.fst
    ∧ (runOps initState reloadOps).agents = [] :=
  ⟨by decide, by decide⟩

/-- C8 amended: after an initial successful load followed by any
sequence of discovery operations, the descriptor-store names are a
subset of the raw registry names; a name enters the store only with a
successful per-agent fetch for its registered endpoint; and every agent
name the matcher can select is a key of the descriptor store. -/
theorem C8_store_invariant_amended (m : List (String × String))
    (fs : List (String → String → Except FetchReason AgentCard)) :
    ((runOps initState (Op.load (.ok m) :: fs.map Op.discover)).agents = m
     ∧ ∀ n, n ∈ (runOps initState (Op.load (.ok m) :: fs.map Op.discover)).cards.map Prod.fst →
         n ∈ m.map Prod.fst)
    ∧ (∀ (fetch : String → String → Except FetchReason AgentCard) (s : RegState) (n : String),
         n ∈ (discover_agents fetch s).2.cards.map Prod.fst →
         n ∈ s.cards.map Prod.fst ∨ ∃ u, (n, u) ∈ s.agents ∧ exceptOk (fetch n u) = true)
    ∧ (∀ (cards : List (String × AgentInfo)) (query n : String) (llm : GeminiOutcome),
         route_decision cards query llm = some (.dispatchTo n) →
         n ∈ cards.map Prod.fst) := by
  refine ⟨?_, ?_, ?_⟩
  · simp only [runOps, List.foldl]
    exact runOps_discover_subset m fs _ rfl (by simp [initState, applyOp, load_registry])
  · intro fetch s n h
    exact mem_cards_discoverGo fetch s.agents s n h
  · intro cards query n llm h
    exact route_decision_mem h

/-- C8 amended witness: one loaded and discovered agent; the resulting
registry is the loaded mapping and the discovered store key is among the
registry names. -/
theorem C8_store_invariant_amended_witness :
    (runOps initState
        [Op.load (.ok [("a", "u")]), Op.discover (fun _ _ => .ok ⟨"a", "", []⟩)]).agents
      = [("a", "u")]
    ∧ "a" ∈ [("a", "u")].map Prod.fst := by
  have h := C8_store_invariant_amended [("a", "u")] [fun _ _ => .ok ⟨"a", "", []⟩]
  exact ⟨h.1.1, h.1.2 "a" (by decide)⟩

/-- C9: a failed read or parse of the registry configuration source makes
`load_registry` report failure, leaves the initially empty name→URL
mapping empty, and makes the startup sequence stop before discovery. -/
theorem C9_load_failure (e : String)
    (fetch : String → String → Except FetchReason AgentCard) :
    load_registry (.error e) initState = (false, initState)
    ∧ initState.agents = []
    ∧ client_main (.error e) fetch = .loadFailed :=
  ⟨rfl, rfl, rfl⟩

theorem strTask_ne_empty (t : Task) : strTask t ≠ "" := by
  intro h
  have h2 := congrArg String.length h
  simp only [strTask, String.length_append] at h2
  have h4 : "id=".length = 3 := rfl
  have h0 : ("" : String).length = 0 := rfl
  rw [h4, h0] at h2
  omega

theorem strResponse_ne_empty (root : String) : strResponse root ≠ "" := by
  intro h
  have h2 := congrArg String.length h
  simp only [strResponse, String.length_append] at h2
  have h5 : "root=".length = 5 := rfl
  have h0 : ("" : String).length = 0 := rfl
  rw [h5, h0] at h2
  omega

/-- C6: when the reply carries a task whose first artifact has at least
one part, the Dispatcher's normalization returns exactly the text of
that first part; otherwise it returns the string rendering of the whole
task (resp. of the whole response when no task is present), and these
renderings are never the empty string. -/
theorem C6_response_normalization (id st root : String) (p0 : Part)
    (ps : List Part) (arts : List Artifact) :
    extract_response (.withResult ⟨id, st, ⟨p0 :: ps⟩ :: arts⟩) = p0.text
    ∧ extract_response (.withResult ⟨id, st, []⟩) = strTask ⟨id, st, []⟩
    ∧ extract_response (.withResult ⟨id, st, ⟨[]⟩ :: arts⟩) = strTask ⟨id, st, ⟨[]⟩ :: arts⟩
    ∧ strTask ⟨id, st, []⟩ ≠ ""
    ∧ strTask ⟨id, st, ⟨[]⟩ :: arts⟩ ≠ ""
    ∧ extract_response (.other root) = strResponse root
    ∧ strResponse root ≠ "" :=
  ⟨rfl, rfl, rfl, strTask_ne_empty _, strTask_ne_empty _, rfl, strResponse_ne_empty root⟩

/-- C6 witness: a reply whose task carries one artifact with one text
part normalizes to exactly that text. -/
theorem C6_response_normalization_witness :
    extract_response (.withResult ⟨"t1", "completed", [⟨[⟨"4:55 PM"⟩]⟩]⟩) = "4:55 PM" :=
  (C6_response_normalization "t1" "completed" "resp" ⟨"4:55 PM"⟩ [] []).1

/-- C7: the Dispatcher's send never propagates an exception — with no
live connection it returns the "not available" error string as a value,
every transport exception is converted into the distinctly prefixed
error string, and after such a failed dispatch the interactive loop
records the error answer and keeps processing the remaining input
lines. -/
theorem C7_dispatch_error_handling (clients : List String)
    (agentName msg : String) (transport : TransportOutcome) :
    (clients.contains agentName = false →
       send_to_agent clients transport agentName
         = "❌ Agent " ++ agentName ++ " not available")
    ∧ (clients.contains agentName = true →
       send_to_agent clients (.exn msg) agentName = "❌ Error: " ++ msg)
    ∧ (∀ (cards : List (String × AgentInfo)) (line : String) (llm : GeminiOutcome)
         (rest : List (String × GeminiOutcome × TransportOutcome)),
       ((pyStrip line).isEmpty
         || ["exit", "quit"].contains (pyLower (pyStrip line))) = false →
       ∃ ans ds,
         run_route cards clients (pyStrip line) llm (.exn msg) = some (ans, ds)
         ∧ runLoop cards clients ((line, llm, .exn msg) :: rest)
             = (ans, ds) :: runLoop cards clients rest) := by
  refine ⟨?_, ?_, ?_⟩
  · intro hc
    unfold send_to_agent
    rw [hc]
    simp
  · intro hc
    unfold send_to_agent
    rw [hc]
    simp
  · intro cards line llm rest hguard
    have hs := route_decision_isSome cards (pyStrip line) llm
    have hex : ∃ r, run_route cards clients (pyStrip line) llm (.exn msg) = some r := by
      unfold run_route
      cases hr : route_decision cards (pyStrip line) llm with
      | none => rw [hr] at hs; simp at hs
      | some o => cases o <;> exact ⟨_, rfl⟩
    obtain ⟨⟨ans, ds⟩, hr⟩ := hex
    refine ⟨ans, ds, hr, ?_⟩
    simp only [runLoop]
    rw [hguard]
    simp only [Bool.false_eq_true, if_false]
    rw [hr]

/-- C7 witness: dispatching to an agent with no live connection returns
the error string as a value. -/
theorem C7_dispatch_error_handling_witness :
    send_to_agent [] (.exn "connection refused") "ghost"
      = "❌ Agent ghost not available" := by
  have h := (C7_dispatch_error_handling [] "ghost" "connection refused"
      (.exn "connection refused")).1 (by decide)
  rw [h]
  decide

/-- C10: an input line that is empty or whitespace-only after stripping
terminates the read-eval-print loop exactly as "exit" and "quit" do: it
is never routed or dispatched and no further input lines are read. -/
theorem C10_blank_line_terminates (cards : List (String × AgentInfo))
    (clients : List String) (line : String) (llm : GeminiOutcome)
    (transport : TransportOutcome)
    (rest : List (String × GeminiOutcome × TransportOutcome))
    (hblank : pyStrip line = "") :
    runLoop cards clients ((line, llm, transport) :: rest) = []
    ∧ runLoop cards clients (("exit", llm, transport) :: rest) = []
    ∧ runLoop cards clients (("quit", llm, transport) :: rest) = []
    ∧ (∀ rest2, runLoop cards clients ((line, llm, transport) :: rest)
         = runLoop cards clients ((line, llm, transport) :: rest2)) := by
  have hguard : ((pyStrip line).isEmpty
      || ["exit", "quit"].contains (pyLower (pyStrip line))) = true := by
    rw [hblank]
    rfl
  have hline : runLoop cards clients ((line, llm, transport) :: rest) = [] := by
    simp only [runLoop]
    rw [hguard]
    rfl
  refine ⟨hline, ?_, ?_, ?_⟩
  · simp only [runLoop]
    rfl
  · simp only [runLoop]
    rfl
  · intro rest2
    rw [hline]
    simp only [runLoop]
    rw [hguard]
    rfl

/-- C10 witness: a whitespace-only line ends the loop before the
following line is ever read. -/
theorem C10_blank_line_terminates_witness :
    runLoop [] [] [("   ", .noKey, .exn "x"), ("hello", .noKey, .exn "x")] = [] :=
  (C10_blank_line_terminates [] [] "   " .noKey (.exn "x")
    [("hello", .noKey, .exn "x")] (by decide)).1

end A2A
